import Mathlib

/-
Verification of the forward-computation core of the dual-stream flow-matching
transformer in flux/model.py (classes Flux and Flux_kv).

Shallow embedding conventions:
  * torch tensors are modelled as a shape (a list of natural-number
    dimension sizes) together with a total data function from multi-indices
    to integer entries; the concrete attention blocks, embedding MLPs, the
    positional-frequency construction and the final projection layer are
    opaque collaborators, modelled as function parameters (spec section 6).
  * python dictionaries (the CrossPassInfo mappings) are association lists
    with first-match lookup and shadowing update.
  * python exceptions are modelled with Except / explicit error fields;
    the KV-aware forward additionally returns the final state of the
    caller-supplied mappings, a trace of block invocations and a log of the
    writes that the transformer itself performs on the info mapping, so
    that frame conditions of the orchestration are stateable.
-/

set_option autoImplicit false

namespace FluxSpec

/-- Tensor model: a shape together with a total function from multi-indices
to integer entries. Out-of-range indices are unconstrained (never observed
through the modelled operations on in-range indices). -/
structure Tensor where
  shape : List Nat
  data : List Nat → Int

/-- Number of dimensions, torch ndim. -/
def Tensor.ndim (t : Tensor) : Nat := t.shape.length

/-- Size along dimension d, torch size(d); 0 when d is out of range. -/
def Tensor.size (t : Tensor) (d : Nat) : Nat := t.shape.getD d 0

/-- torch.cat along dimension d (dimension sizes other than d are required
to agree by torch; the orchestration only ever concatenates such tensors). -/
def torchCat (a b : Tensor) (d : Nat) : Tensor :=
  { shape := a.shape.set d (a.size d + b.size d)
    data := fun ix =>
      if ix.getD d 0 < a.size d then a.data ix
      else b.data (ix.set d (ix.getD d 0 - a.size d)) }

/-- Python slice t[..., k:, ...] on dimension d: drop the first k entries
(clamped at zero length, as in python slicing). -/
def sliceFrom (t : Tensor) (d k : Nat) : Tensor :=
  { shape := t.shape.set d (t.size d - k)
    data := fun ix => t.data (ix.set d (ix.getD d 0 + k)) }

/-- Python slice t[..., :k, ...] on dimension d: keep the first k entries
(clamped to the actual length, as in python slicing). -/
def sliceTo (t : Tensor) (d k : Nat) : Tensor :=
  { shape := t.shape.set d (min k (t.size d))
    data := t.data }

/-- Advanced indexing t[..., idxs, ...] on dimension d, total version
(no bounds check); used through indexSelect, which performs the torch
bounds check. -/
def gatherTotal (t : Tensor) (d : Nat) (idxs : List Nat) : Tensor :=
  { shape := t.shape.set d idxs.length
    data := fun ix => t.data (ix.set d (idxs.getD (ix.getD d 0) 0)) }

/-- Pointwise tensor addition (operands have equal shapes at every use in
the orchestration). -/
def tadd (a b : Tensor) : Tensor :=
  { shape := a.shape, data := fun ix => a.data ix + b.data ix }

/-- Errors raised by the modelled code paths. inputShape and
missingConditioning are the two explicit ValueError raises in forward;
keyError, typeError and indexError are the python runtime errors that the
KV-aware target-pass branch can raise (missing dict key, Linear applied to
None, tensor index out of range). -/
inductive FluxError where
  | inputShape
  | missingConditioning
  | keyError (k : String)
  | typeError
  | indexError
deriving DecidableEq

/-- Errors raised at construction time. The two explicit ValueError raises
in Flux.__init__ are the configuration errors; zeroDivision models the
python ZeroDivisionError of the modulus when num_heads = 0. -/
inductive ConstructError where
  | zeroDivision
  | configHiddenSize
  | configAxesDim
deriving DecidableEq

/-- Whether a construction error is one of the two explicit configuration
ValueError raises of Flux.__init__. -/
def ConstructError.isConfigurationError : ConstructError → Bool
  | .zeroDivision => false
  | .configHiddenSize => true
  | .configAxesDim => true

/-- Mirror of the FluxParams dataclass. mlp_factor corresponds to the mlp
ratio field (a float in the source, only forwarded to the opaque blocks and
never inspected by the orchestration, so its carrier type is irrelevant). -/
structure FluxParams where
  in_channels : Nat
  vec_in_dim : Nat
  context_in_dim : Nat
  hidden_size : Nat
  mlp_factor : Nat
  num_heads : Nat
  depth : Nat
  depth_single_blocks : Nat
  axes_dim : List Nat
  theta : Nat
  qkv_bias : Bool
  guidance_embed : Bool

/-- The scalar attributes Flux.__init__ stores on the module once
validation has passed (the opaque submodules it also builds are modelled as
forward-time parameters, see Modules below). -/
structure FluxModel where
  params : FluxParams
  in_channels : Nat
  out_channels : Nat
  hidden_size : Nat
  num_heads : Nat
  pe_dim : Nat

/-- Flux.__init__: validates hidden_size % num_heads == 0 and
sum(axes_dim) == hidden_size // num_heads, raising ValueError on violation,
before any layer is built; num_heads = 0 makes the python modulus raise
ZeroDivisionError instead. -/
def mkFlux (p : FluxParams) : Except ConstructError FluxModel :=
  if p.num_heads = 0 then .error .zeroDivision
  else if p.hidden_size % p.num_heads ≠ 0 then .error .configHiddenSize
  else if p.axes_dim.sum ≠ p.hidden_size / p.num_heads then .error .configAxesDim
  else .ok
    { params := p
      in_channels := p.in_channels
      out_channels := p.in_channels
      hidden_size := p.hidden_size
      num_heads := p.num_heads
      pe_dim := p.hidden_size / p.num_heads }

/-- Flux_kv.__init__ only swaps the (opaque) block classes and calls
super().__init__, so construction-time validation is literally the plain
constructor's. -/
def mkFlux_kv (p : FluxParams) : Except ConstructError FluxModel :=
  mkFlux p

/-- Dictionary keys. -/
abbrev Key := String

/-- The info key of the inverse flag. -/
def kInverse : Key := "inverse"

/-- The info key of the per-block id counter. -/
def kId : Key := "id"

/-- The info key of the mask index list. -/
def kMaskIndices : Key := "mask_indices"

/-- The info key of the derived positional-encoding mask. -/
def kPeMask : Key := "pe_mask"

/-- Cache key used by the stub dual-stream KV block. -/
def kCacheD : Key := "cacheD"

/-- Cache key used by the stub single-stream KV block. -/
def kCacheS : Key := "cacheS"

/-- Values stored in the CrossPassInfo dictionaries by the code under
verification: the inverse flag, the per-block id counter, the mask index
list, and the derived pe_mask tensor. -/
inductive Val where
  | bool (b : Bool)
  | nat (n : Nat)
  | idxs (l : List Nat)
  | tensor (t : Tensor)

/-- Python dict, modelled as an association list with first-match lookup. -/
abbrev Info := List (Key × Val)

/-- Dictionary lookup, first match. -/
def Info.get (i : Info) (k : Key) : Option Val :=
  match i with
  | [] => none
  | (k1, v) :: rest => if k1 = k then some v else Info.get rest k

/-- Dictionary assignment, by shadowing (observationally equal to python
in-place replacement under Info.get). -/
def Info.set (i : Info) (k : Key) (v : Val) : Info := (k, v) :: i

/-- Python truthiness for the modelled values, used by the branch
`if not info[inverse]`. The spec declares the inverse flag boolean; the
tensor case (where torch truthiness is only defined for one-element
tensors) is modelled as true and is exercised by no claim. -/
def valTruthy : Val → Bool
  | .bool b => b
  | .nat n => decide (n ≠ 0)
  | .idxs l => decide (l ≠ [])
  | .tensor _ => true

/-- The opaque submodules Flux.__init__ builds, as pure functions
(spec section 6: positional encoder, condition embedders, input
projections, final projection). -/
structure Modules where
  img_in : Tensor → Tensor
  txt_in : Tensor → Tensor
  time_in : Tensor → Tensor
  vector_in : Tensor → Tensor
  guidance_in : Tensor → Tensor
  timestep_embedding : Tensor → Nat → Tensor
  pe_embedder : Tensor → Tensor
  final_layer : Tensor → Tensor → Tensor

/-- The guidance branch of forward: with guidance_embed configured,
a missing guidance raises ValueError; otherwise the guidance embedding is
added to the conditioning vector. Shared verbatim by Flux.forward and
Flux_kv.forward. -/
def guidanceVec (embed : Bool) (o : Modules) (vec : Tensor)
    (guidance : Option Tensor) : Except FluxError Tensor :=
  if embed then
    match guidance with
    | none => .error .missingConditioning
    | some g => .ok (tadd vec (o.guidance_in (o.timestep_embedding g 256)))
  else .ok vec

/-- Plain dual-stream block (opaque): consumes and produces the image and
text streams, with the conditioning vector and positional table as side
inputs. -/
structure DBlock where
  apply : Tensor → Tensor → Tensor → Tensor → Tensor × Tensor

/-- Plain single-stream block (opaque). -/
structure SBlock where
  apply : Tensor → Tensor → Tensor → Tensor

/-- The dual-stream loop of Flux.forward. -/
def runDualPlain (bs : List DBlock) (img txt vec pe : Tensor) : Tensor × Tensor :=
  match bs with
  | [] => (img, txt)
  | b :: rest =>
    let r := b.apply img txt vec pe
    runDualPlain rest r.1 r.2 vec pe

/-- The single-stream loop of Flux.forward. -/
def runSinglePlain (bs : List SBlock) (x vec pe : Tensor) : Tensor :=
  match bs with
  | [] => x
  | b :: rest => runSinglePlain rest (b.apply x vec pe) vec pe

/-- Flux.forward. dblocks and sblocks are the module lists built at
construction (length depth and depth_single_blocks). -/
def Flux.forward (m : FluxModel) (o : Modules)
    (dblocks : List DBlock) (sblocks : List SBlock)
    (img img_ids txt txt_ids timesteps y : Tensor)
    (guidance : Option Tensor) : Except FluxError Tensor :=
  if img.ndim ≠ 3 ∨ txt.ndim ≠ 3 then .error .inputShape
  else
    let img1 := o.img_in img
    let vec0 := o.time_in (o.timestep_embedding timesteps 256)
    match guidanceVec m.params.guidance_embed o vec0 guidance with
    | .error e => .error e
    | .ok vec1 =>
      let vec := tadd vec1 (o.vector_in y)
      let txt1 := o.txt_in txt
      let ids := torchCat txt_ids img_ids 1
      let pe := o.pe_embedder ids
      let r := runDualPlain dblocks img1 txt1 vec pe
      let x := torchCat r.2 r.1 1
      let x1 := runSinglePlain sblocks x vec pe
      let imgOut := sliceFrom x1 1 (r.2.size 1)
      .ok (o.final_layer imgOut vec)

/-- Torch advanced indexing t[..., idxs, ...] on dimension d with the torch
bounds check: an index at or beyond the size of dimension d raises
IndexError. -/
def indexSelect (t : Tensor) (d : Nat) (idxs : List Nat) : Except FluxError Tensor :=
  if idxs.all (fun i => i < t.size d) then .ok (gatherTotal t d idxs)
  else .error .indexError

/-- Spec-side pe_mask derivation (stated from the words of the claim, for
comparison with the code): the positional-table slice for the first
textLen positions concatenated with the table rows at the mask indices
offset by textLen, in that order, along the position dimension 2. -/
def pe_mask_spec (pe : Tensor) (textLen : Nat) (l : List Nat) : Tensor :=
  torchCat (sliceTo pe 2 textLen) (gatherTotal pe 2 (l.map (fun i => i + textLen))) 2

/-- Result of a KV-aware dual-stream block call (the block may mutate the
three dictionaries in place; the tensors are rebound by the loop). -/
structure DStepOut where
  img : Tensor
  txt : Tensor
  info : Info
  info_s : Info
  inp : Info

/-- KV-aware dual-stream block (opaque): arguments are img, txt, vec, pe,
info, info_s, zt_r, inp_target_s. -/
structure DBlockKV where
  apply : Tensor → Tensor → Tensor → Tensor → Info → Info → Option Tensor → Info → DStepOut

/-- Result of a KV-aware single-stream block call. -/
structure SStepOut where
  x : Tensor
  info : Info
  info_s : Info
  inp : Info

/-- KV-aware single-stream block (opaque): arguments are x, vec, pe, info,
info_s, zt_r, inp_target_s. -/
structure SBlockKV where
  apply : Tensor → Tensor → Tensor → Info → Info → Option Tensor → Info → SStepOut

/-- Instrumentation record of one block invocation: which loop (0 for the
dual-stream loop, 1 for the single-stream loop), the position of the block
in its loop, the id entry of the info mapping as the block receives it, and
the zt_r value as the block receives it. -/
structure BlockCall where
  loop : Nat
  pos : Nat
  idSeen : Option Val
  ztSeen : Option Tensor

/-- Instrumentation record of one write that the transformer itself
performs on the info mapping (key and value written). -/
abbrev TWrite := Key × Val

/-- Result of the KV-aware dual-stream loop, with instrumentation. -/
structure DualLoopOut where
  img : Tensor
  txt : Tensor
  info : Info
  info_s : Info
  inp : Info
  calls : List BlockCall
  twrites : List TWrite

/-- The dual-stream loop of Flux_kv.forward: the counter starts at the
given k (zero at the call site), info[id] is set to the counter before each
block call, and the counter is incremented once per block. -/
def runDualKV (bs : List DBlockKV) (k : Nat) (img txt vec pe : Tensor)
    (info info_s : Info) (zt : Option Tensor) (inp : Info) : DualLoopOut :=
  match bs with
  | [] => ⟨img, txt, info, info_s, inp, [], []⟩
  | b :: rest =>
    let info1 := Info.set info kId (.nat k)
    let r := b.apply img txt vec pe info1 info_s zt inp
    let t := runDualKV rest (k + 1) r.img r.txt vec pe r.info r.info_s zt r.inp
    ⟨t.img, t.txt, t.info, t.info_s, t.inp,
      ⟨0, k, Info.get info1 kId, zt⟩ :: t.calls,
      (kId, .nat k) :: t.twrites⟩

/-- Result of the KV-aware single-stream loop, with instrumentation. -/
structure SingleLoopOut where
  x : Tensor
  info : Info
  info_s : Info
  inp : Info
  calls : List BlockCall
  twrites : List TWrite

/-- The single-stream loop of Flux_kv.forward: the counter restarts at the
given k (zero at the call site, independently of the dual-stream loop). -/
def runSingleKV (bs : List SBlockKV) (k : Nat) (x vec pe : Tensor)
    (info info_s : Info) (zt : Option Tensor) (inp : Info) : SingleLoopOut :=
  match bs with
  | [] => ⟨x, info, info_s, inp, [], []⟩
  | b :: rest =>
    let info1 := Info.set info kId (.nat k)
    let r := b.apply x vec pe info1 info_s zt inp
    let t := runSingleKV rest (k + 1) r.x vec pe r.info r.info_s zt r.inp
    ⟨t.x, t.info, t.info_s, t.inp,
      ⟨1, k, Info.get info1 kId, zt⟩ :: t.calls,
      (kId, .nat k) :: t.twrites⟩

/-- Data flowing from the preamble of Flux_kv.forward into its block loops:
the projected streams, the conditioning vector, the positional table, the
info mapping as mutated by the preamble, the zt_r value the blocks will
receive, and the log of preamble writes to info. -/
structure PrepOut where
  img : Tensor
  txt : Tensor
  vec : Tensor
  pe : Tensor
  info : Info
  zt : Option Tensor
  tw0 : List TWrite

/-- The part of Flux_kv.forward before the block loops: shape validation,
projections, conditioning, positional table, and the branch on
info[inverse]. On the target pass (inverse falsy) zt_r is projected through
img_in (Linear applied to None raises TypeError), mask_indices is read
(KeyError if absent), and pe_mask is derived with the literal offset 512
and stored into info; every error leaves the info mapping untouched
(the pe_mask assignment happens only after its right-hand side has been
computed without error). -/
def kvPrep (m : FluxModel) (o : Modules)
    (img img_ids txt txt_ids timesteps y : Tensor) (guidance : Option Tensor)
    (info : Info) (zt_r : Option Tensor) :
    Except FluxError PrepOut :=
  if img.ndim ≠ 3 ∨ txt.ndim ≠ 3 then .error .inputShape
  else
    let img1 := o.img_in img
    let vec0 := o.time_in (o.timestep_embedding timesteps 256)
    match guidanceVec m.params.guidance_embed o vec0 guidance with
    | .error e => .error e
    | .ok vec1 =>
      let vec := tadd vec1 (o.vector_in y)
      let txt1 := o.txt_in txt
      let ids := torchCat txt_ids img_ids 1
      let pe := o.pe_embedder ids
      match Info.get info kInverse with
      | none => .error (.keyError kInverse)
      | some v =>
        if valTruthy v then
          .ok ⟨img1, txt1, vec, pe, info, zt_r, []⟩
        else
          match zt_r with
          | none => .error .typeError
          | some z =>
            let zt1 := o.img_in z
            match Info.get info kMaskIndices with
            | none => .error (.keyError kMaskIndices)
            | some (.idxs l) =>
              match indexSelect pe 2 (l.map (fun i => i + 512)) with
              | .error e => .error e
              | .ok sel =>
                let pm := torchCat (sliceTo pe 2 512) sel 2
                .ok ⟨img1, txt1, vec, pe, Info.set info kPeMask (.tensor pm),
                      some zt1, [(kPeMask, .tensor pm)]⟩
            | some _ => .error .typeError

/-- Result of one Flux_kv.forward call: the output (or the raised error),
the final state of the three caller-supplied mappings, the trace of block
invocations, and the log of the writes the transformer itself performed on
the info mapping. -/
structure KVResult where
  out : Except FluxError Tensor
  info : Info
  info_s : Info
  inp : Info
  calls : List BlockCall
  twrites : List TWrite

/-- The loop part of Flux_kv.forward, once the preamble has succeeded: the
dual-stream loop (counter from 0), the concatenation, the single-stream
loop (counter restarted from 0), the text-prefix slice (using the
post-dual-loop text length) and the final projection. -/
def kvAssemble (o : Modules) (dblocks : List DBlockKV) (sblocks : List SBlockKV)
    (info_s inp_target_s : Info) (p : PrepOut) : KVResult :=
  let d := runDualKV dblocks 0 p.img p.txt p.vec p.pe p.info info_s p.zt inp_target_s
  let x0 := torchCat d.txt d.img 1
  let s := runSingleKV sblocks 0 x0 p.vec p.pe d.info d.info_s p.zt d.inp
  let imgOut := sliceFrom s.x 1 (d.txt.size 1)
  ⟨.ok (o.final_layer imgOut p.vec), s.info, s.info_s, s.inp,
    d.calls ++ s.calls, p.tw0 ++ (d.twrites ++ s.twrites)⟩

/-- Flux_kv.forward: the preamble kvPrep, then the block loops and the
output computation of kvAssemble. A preamble error propagates with the
caller-supplied mappings untouched, no block invoked and no transformer
write performed. -/
def Flux_kv.forward (m : FluxModel) (o : Modules)
    (dblocks : List DBlockKV) (sblocks : List SBlockKV)
    (img img_ids txt txt_ids timesteps y : Tensor) (guidance : Option Tensor)
    (info info_s : Info) (zt_r : Option Tensor) (inp_target_s : Info) : KVResult :=
  match kvPrep m o img img_ids txt txt_ids timesteps y guidance info zt_r with
  | .error e => ⟨.error e, info, info_s, inp_target_s, [], []⟩
  | .ok p => kvAssemble o dblocks sblocks info_s inp_target_s p

/-- The default values of the info, info_s and inp_target_s parameters of
Flux_kv.forward. In python a default argument expression is evaluated once,
when the def statement executes (here: once, when the class body of Flux_kv
executes), and the resulting objects are stored on the single function
object shared by every instance of the class; a call that omits the
argument binds the parameter to that stored object, so in-place mutations
performed during such a call remain in the object for every later call that
also omits the argument. -/
structure Defaults where
  info : Info
  info_s : Info
  inp : Info

/-- The three default dictionaries as created when the def statement of
Flux_kv.forward executes: three distinct empty dicts. -/
def initialDefaults : Defaults := ⟨[], [], []⟩

/-- The argument list of one Flux_kv.forward call site; none for info,
info_s or inp_target_s means the caller omitted that argument. -/
structure KVCallArgs where
  img : Tensor
  img_ids : Tensor
  txt : Tensor
  txt_ids : Tensor
  timesteps : Tensor
  y : Tensor
  guidance : Option Tensor
  info : Option Info
  info_s : Option Info
  zt_r : Option Tensor
  inp : Option Info

/-- One call of Flux_kv.forward under python default-argument semantics:
every omitted dictionary argument is bound to the corresponding shared
default object, and mutations of a dictionary during the call land in the
default object exactly when that argument was omitted (an explicitly passed
dictionary is a different object, so the default cell is untouched). The
model and submodules may differ from call to call (the defaults live on the
class's single function object, not on a model instance). -/
def Flux_kv.call (m : FluxModel) (o : Modules)
    (dblocks : List DBlockKV) (sblocks : List SBlockKV)
    (a : KVCallArgs) (d : Defaults) : KVResult × Defaults :=
  let i0 := a.info.getD d.info
  let is0 := a.info_s.getD d.info_s
  let ip0 := a.inp.getD d.inp
  let r := Flux_kv.forward m o dblocks sblocks a.img a.img_ids a.txt a.txt_ids
      a.timesteps a.y a.guidance i0 is0 a.zt_r ip0
  (r, ⟨if a.info.isNone then r.info else d.info,
       if a.info_s.isNone then r.info_s else d.info_s,
       if a.inp.isNone then r.inp else d.inp⟩)

/-- List of the loop-counter values of a loop of n iterations whose counter
starts at k: k, k+1, ..., k+n-1. -/
def posList (k n : Nat) : List Nat :=
  match n with
  | 0 => []
  | Nat.succ n1 => k :: posList (k + 1) n1

/-- All-zero tensor of a given shape, used for concrete instantiations. -/
def zeros (s : List Nat) : Tensor := ⟨s, fun _ => 0⟩

/-- Concrete configuration (the scenario of spec section 8): hidden size 16
with 2 heads, axis dimensions [4, 4] summing to 8 = 16 / 2, one block of
each kind, guidance disabled. -/
def exParams : FluxParams :=
  { in_channels := 4, vec_in_dim := 8, context_in_dim := 8, hidden_size := 16
    mlp_factor := 4, num_heads := 2, depth := 1, depth_single_blocks := 1
    axes_dim := [4, 4], theta := 10000, qkv_bias := true, guidance_embed := false }

/-- The model the constructor builds from exParams. -/
def exModel : FluxModel :=
  { params := exParams, in_channels := 4, out_channels := 4
    hidden_size := 16, num_heads := 2, pe_dim := 8 }

/-- Concrete opaque submodules for instantiations: shape-respecting stubs.
The positional encoder produces one row per joint id (dimension 1 of its
input), with the row content recording the joint position, so that distinct
positions give distinct rows. -/
def exModules : Modules :=
  { img_in := fun t => ⟨[t.size 0, t.size 1, 16], fun _ => 0⟩
    txt_in := fun t => ⟨[t.size 0, t.size 1, 16], fun _ => 0⟩
    time_in := fun t => t
    vector_in := fun t => t
    guidance_in := fun t => t
    timestep_embedding := fun t _ => t
    pe_embedder := fun t => ⟨[t.size 0, 1, t.size 1, 8], fun ix => Int.ofNat (ix.getD 2 0)⟩
    final_layer := fun x _ => ⟨[x.size 0, x.size 1, 4], fun _ => 0⟩ }

/-- Identity dual-stream block for instantiations. -/
def exDBlock : DBlock := ⟨fun i t _ _ => (i, t)⟩

/-- Identity single-stream block for instantiations. -/
def exSBlock : SBlock := ⟨fun x _ _ => x⟩

/-- KV-aware dual-stream stub block for instantiations: returns the streams
unchanged and writes one cache entry (keyed like a per-layer cache write)
into info_s. -/
def exDBlockKV : DBlockKV :=
  ⟨fun i t _ _ info info_s _ inp => ⟨i, t, info, Info.set info_s kCacheD (.nat 7), inp⟩⟩

/-- KV-aware single-stream stub block for instantiations: returns the
sequence unchanged and writes one cache entry into info_s. -/
def exSBlockKV : SBlockKV :=
  ⟨fun x _ _ info info_s _ inp => ⟨x, info, Info.set info_s kCacheS (.nat 9), inp⟩⟩

/-- Concrete configuration equal to exParams except that guidance
conditioning is enabled, for guidance-gating instantiations. -/
def exParamsG : FluxParams :=
  { in_channels := 4, vec_in_dim := 8, context_in_dim := 8, hidden_size := 16
    mlp_factor := 4, num_heads := 2, depth := 1, depth_single_blocks := 1
    axes_dim := [4, 4], theta := 10000, qkv_bias := true, guidance_embed := true }

/-- The model the constructor builds from exParamsG. -/
def exModelG : FluxModel :=
  { params := exParamsG, in_channels := 4, out_channels := 4
    hidden_size := 16, num_heads := 2, pe_dim := 8 }

/-- Concrete info mapping of a target pass: inverse false and mask indices
1 and 3, as in the scenario of the pe_mask claim. -/
def exInfoTarget : Info := [(kInverse, Val.bool false), (kMaskIndices, Val.idxs [1, 3])]

/-- Concrete info mapping of a source pass: inverse true (an id value left
over from some earlier loop is also present, to exercise independence from
stale entries). -/
def exInfoSource : Info := [(kInverse, Val.bool true), (kId, Val.nat 55)]

/-- Concrete Flux_kv.forward call site omitting the info, info_s and
inp_target_s arguments (rank-3 inputs, guidance omitted, zt_r present). -/
def exArgsOmit : KVCallArgs :=
  { img := zeros [1, 10, 4], img_ids := zeros [1, 10, 3], txt := zeros [1, 4, 8]
    txt_ids := zeros [1, 4, 3], timesteps := zeros [1], y := zeros [1, 8]
    guidance := none, info := none, info_s := none
    zt_r := some (zeros [1, 10, 4]), inp := none }

/-- Shape of a concatenation: the dimension d sizes add. -/
theorem torchCat_shape (a b : Tensor) (d : Nat) :
    (torchCat a b d).shape = a.shape.set d (a.size d + b.size d) := rfl

/-- Shape of a drop-prefix slice on dimension d. -/
theorem sliceFrom_shape (t : Tensor) (d k : Nat) :
    (sliceFrom t d k).shape = t.shape.set d (t.size d - k) := rfl

/-- Lookup after assignment of the same key. -/
theorem Info.get_set_self (i : Info) (k : Key) (v : Val) :
    Info.get (Info.set i k v) k = some v := by
  simp [Info.get, Info.set]

/-- Instrumentation facts about the dual-stream loop: every recorded call
sees the id entry equal to its position and receives the loop's zt value,
the (loop, pos) trace enumerates the counter values in order, and the
transformer writes exactly the id entries. -/
theorem runDualKV_spec (bs : List DBlockKV) :
    ∀ (k : Nat) (img txt vec pe : Tensor) (info info_s : Info)
      (zt : Option Tensor) (inp : Info),
      (∀ c ∈ (runDualKV bs k img txt vec pe info info_s zt inp).calls,
        c.idSeen = some (Val.nat c.pos) ∧ c.ztSeen = zt ∧ c.loop = 0)
      ∧ (runDualKV bs k img txt vec pe info info_s zt inp).calls.map
          (fun c => (c.loop, c.pos)) = (posList k bs.length).map (fun j => (0, j))
      ∧ (runDualKV bs k img txt vec pe info info_s zt inp).twrites
          = (posList k bs.length).map (fun j => ((kId : Key), Val.nat j)) := by
  induction bs with
  | nil =>
    intro k img txt vec pe info info_s zt inp
    refine ⟨?_, rfl, rfl⟩
    intro c hc
    simp [runDualKV] at hc
  | cons b rest ih =>
    intro k img txt vec pe info info_s zt inp
    simp only [runDualKV, posList, List.map]
    obtain ⟨ih1, ih2, ih3⟩ := ih (k + 1)
      (b.apply img txt vec pe (Info.set info kId (.nat k)) info_s zt inp).img
      (b.apply img txt vec pe (Info.set info kId (.nat k)) info_s zt inp).txt
      vec pe
      (b.apply img txt vec pe (Info.set info kId (.nat k)) info_s zt inp).info
      (b.apply img txt vec pe (Info.set info kId (.nat k)) info_s zt inp).info_s
      zt
      (b.apply img txt vec pe (Info.set info kId (.nat k)) info_s zt inp).inp
    refine ⟨?_, ?_, ?_⟩
    · intro c hc
      rcases List.mem_cons.mp hc with h | h
      · subst h
        exact ⟨Info.get_set_self info kId (.nat k), rfl, rfl⟩
      · exact ih1 c h
    · simpa using ih2
    · simpa using ih3

/-- Instrumentation facts about the single-stream loop, mirroring
runDualKV_spec with loop tag 1. -/
theorem runSingleKV_spec (bs : List SBlockKV) :
    ∀ (k : Nat) (x vec pe : Tensor) (info info_s : Info)
      (zt : Option Tensor) (inp : Info),
      (∀ c ∈ (runSingleKV bs k x vec pe info info_s zt inp).calls,
        c.idSeen = some (Val.nat c.pos) ∧ c.ztSeen = zt ∧ c.loop = 1)
      ∧ (runSingleKV bs k x vec pe info info_s zt inp).calls.map
          (fun c => (c.loop, c.pos)) = (posList k bs.length).map (fun j => (1, j))
      ∧ (runSingleKV bs k x vec pe info info_s zt inp).twrites
          = (posList k bs.length).map (fun j => ((kId : Key), Val.nat j)) := by
  induction bs with
  | nil =>
    intro k x vec pe info info_s zt inp
    refine ⟨?_, rfl, rfl⟩
    intro c hc
    simp [runSingleKV] at hc
  | cons b rest ih =>
    intro k x vec pe info info_s zt inp
    simp only [runSingleKV, posList, List.map]
    obtain ⟨ih1, ih2, ih3⟩ := ih (k + 1)
      (b.apply x vec pe (Info.set info kId (.nat k)) info_s zt inp).x
      vec pe
      (b.apply x vec pe (Info.set info kId (.nat k)) info_s zt inp).info
      (b.apply x vec pe (Info.set info kId (.nat k)) info_s zt inp).info_s
      zt
      (b.apply x vec pe (Info.set info kId (.nat k)) info_s zt inp).inp
    refine ⟨?_, ?_, ?_⟩
    · intro c hc
      rcases List.mem_cons.mp hc with h | h
      · subst h
        exact ⟨Info.get_set_self info kId (.nat k), rfl, rfl⟩
      · exact ih1 c h
    · simpa using ih2
    · simpa using ih3

/-- Shape preservation through the plain dual-stream loop, given the block
contract (dual-stream blocks return image and text of unchanged shapes). -/
theorem runDualPlain_shapes (bs : List DBlock) :
    ∀ (img txt vec pe : Tensor),
      (∀ b ∈ bs, ∀ (i t v p1 : Tensor),
        (b.apply i t v p1).1.shape = i.shape ∧ (b.apply i t v p1).2.shape = t.shape) →
      (runDualPlain bs img txt vec pe).1.shape = img.shape
        ∧ (runDualPlain bs img txt vec pe).2.shape = txt.shape := by
  induction bs with
  | nil =>
    intro img txt vec pe _
    exact ⟨rfl, rfl⟩
  | cons b rest ih =>
    intro img txt vec pe hb
    have hhead := hb b (List.mem_cons_self b rest) img txt vec pe
    have htail := ih (b.apply img txt vec pe).1 (b.apply img txt vec pe).2 vec pe
      (fun b1 h1 => hb b1 (List.mem_cons_of_mem b h1))
    simp only [runDualPlain]
    exact ⟨htail.1.trans hhead.1, htail.2.trans hhead.2⟩

/-- Shape preservation through the plain single-stream loop, given the
block contract (single-stream blocks return a sequence of unchanged
shape). -/
theorem runSinglePlain_shape (bs : List SBlock) :
    ∀ (x vec pe : Tensor),
      (∀ b ∈ bs, ∀ (x1 v p1 : Tensor), (b.apply x1 v p1).shape = x1.shape) →
      (runSinglePlain bs x vec pe).shape = x.shape := by
  induction bs with
  | nil =>
    intro x vec pe _
    rfl
  | cons b rest ih =>
    intro x vec pe hb
    have hhead := hb b (List.mem_cons_self b rest) x vec pe
    have htail := ih (b.apply x vec pe) vec pe
      (fun b1 h1 => hb b1 (List.mem_cons_of_mem b h1))
    simp only [runSinglePlain]
    exact htail.trans hhead

/-- A model accepted by the constructor has out_channels equal to the
configured in_channels. -/
theorem mkFlux_ok_out_channels (p : FluxParams) (m : FluxModel)
    (h : mkFlux p = .ok m) : m.out_channels = p.in_channels := by
  unfold mkFlux at h
  split at h
  · exact absurd h (by simp)
  · split at h
    · exact absurd h (by simp)
    · split at h
      · exact absurd h (by simp)
      · cases h
        rfl

/-- Behaviour of Flux_kv.forward when the preamble raises. -/
theorem kvForward_prep_error (m : FluxModel) (o : Modules)
    (dblocks : List DBlockKV) (sblocks : List SBlockKV)
    (img img_ids txt txt_ids timesteps y : Tensor) (guidance : Option Tensor)
    (info info_s : Info) (zt_r : Option Tensor) (inp_target_s : Info)
    (e : FluxError)
    (hp : kvPrep m o img img_ids txt txt_ids timesteps y guidance info zt_r = .error e) :
    Flux_kv.forward m o dblocks sblocks img img_ids txt txt_ids timesteps y guidance
        info info_s zt_r inp_target_s
      = ⟨.error e, info, info_s, inp_target_s, [], []⟩ := by
  unfold Flux_kv.forward
  rw [hp]

/-- Behaviour of Flux_kv.forward when the preamble succeeds. -/
theorem kvForward_prep_ok (m : FluxModel) (o : Modules)
    (dblocks : List DBlockKV) (sblocks : List SBlockKV)
    (img img_ids txt txt_ids timesteps y : Tensor) (guidance : Option Tensor)
    (info info_s : Info) (zt_r : Option Tensor) (inp_target_s : Info)
    (p : PrepOut)
    (hp : kvPrep m o img img_ids txt txt_ids timesteps y guidance info zt_r = .ok p) :
    Flux_kv.forward m o dblocks sblocks img img_ids txt txt_ids timesteps y guidance
        info info_s zt_r inp_target_s
      = kvAssemble o dblocks sblocks info_s inp_target_s p := by
  unfold Flux_kv.forward
  rw [hp]

/-- Instrumentation facts about the loop part of Flux_kv.forward: every
block invocation sees the id entry equal to its position within its loop
and receives the preamble's zt value; the invocation trace is the
dual-stream positions 0..D-1 followed by the single-stream positions
0..S-1; the transformer writes are the preamble writes followed by id
writes only. -/
theorem kvAssemble_spec (o : Modules) (dblocks : List DBlockKV)
    (sblocks : List SBlockKV) (info_s inp_target_s : Info) (p : PrepOut) :
    (∀ c ∈ (kvAssemble o dblocks sblocks info_s inp_target_s p).calls,
        c.idSeen = some (Val.nat c.pos) ∧ c.ztSeen = p.zt)
    ∧ (kvAssemble o dblocks sblocks info_s inp_target_s p).calls.map
        (fun c => (c.loop, c.pos))
        = (posList 0 dblocks.length).map (fun j => (0, j))
          ++ (posList 0 sblocks.length).map (fun j => (1, j))
    ∧ (∀ w ∈ (kvAssemble o dblocks sblocks info_s inp_target_s p).twrites,
        w ∈ p.tw0 ∨ ∃ j, w = ((kId : Key), Val.nat j)) := by
  obtain ⟨d1, d2, d3⟩ := runDualKV_spec dblocks 0 p.img p.txt p.vec p.pe p.info
    info_s p.zt inp_target_s
  obtain ⟨s1, s2, s3⟩ := runSingleKV_spec sblocks 0
    (torchCat (runDualKV dblocks 0 p.img p.txt p.vec p.pe p.info info_s p.zt inp_target_s).txt
      (runDualKV dblocks 0 p.img p.txt p.vec p.pe p.info info_s p.zt inp_target_s).img 1)
    p.vec p.pe
    (runDualKV dblocks 0 p.img p.txt p.vec p.pe p.info info_s p.zt inp_target_s).info
    (runDualKV dblocks 0 p.img p.txt p.vec p.pe p.info info_s p.zt inp_target_s).info_s
    p.zt
    (runDualKV dblocks 0 p.img p.txt p.vec p.pe p.info info_s p.zt inp_target_s).inp
  refine ⟨?_, ?_, ?_⟩
  · intro c hc
    rcases List.mem_append.mp hc with h | h
    · exact ⟨(d1 c h).1, (d1 c h).2.1⟩
    · exact ⟨(s1 c h).1, (s1 c h).2.1⟩
  · show (_ ++ _ : List BlockCall).map _ = _
    rw [List.map_append, d2, s2]
  · intro w hw
    rcases List.mem_append.mp hw with h | h
    · exact .inl h
    · rcases List.mem_append.mp h with h1 | h1
      · rw [d3] at h1
        rcases List.mem_map.mp h1 with ⟨j, _, hj⟩
        exact .inr ⟨j, hj.symm⟩
      · rw [s3] at h1
        rcases List.mem_map.mp h1 with ⟨j, _, hj⟩
        exact .inr ⟨j, hj.symm⟩

/-- With guidance present whenever the configuration requires it, the
guidance branch returns a conditioning vector. -/
theorem guidanceVec_ok (embed : Bool) (o : Modules) (vec : Tensor)
    (guidance : Option Tensor) (hg : embed = true → guidance ≠ none) :
    ∃ v, guidanceVec embed o vec guidance = .ok v := by
  cases embed with
  | false => exact ⟨vec, rfl⟩
  | true =>
    cases guidance with
    | none => exact absurd rfl (hg rfl)
    | some g => exact ⟨_, rfl⟩

/-- Evaluation of the preamble on the source pass (inverse true): it
succeeds, forwards zt_r unmodified, performs no write and leaves the info
mapping untouched. -/
theorem kvPrep_inverse_true (m : FluxModel) (o : Modules)
    (img img_ids txt txt_ids timesteps y : Tensor) (guidance : Option Tensor)
    (info : Info) (zt_r : Option Tensor)
    (h3i : img.ndim = 3) (h3t : txt.ndim = 3)
    (hg : m.params.guidance_embed = true → guidance ≠ none)
    (hinv : Info.get info kInverse = some (.bool true)) :
    ∃ p : PrepOut,
      kvPrep m o img img_ids txt txt_ids timesteps y guidance info zt_r = .ok p
      ∧ p.zt = zt_r ∧ p.tw0 = [] ∧ p.info = info := by
  obtain ⟨v, hv⟩ := guidanceVec_ok m.params.guidance_embed o
    (o.time_in (o.timestep_embedding timesteps 256)) guidance hg
  refine ⟨⟨o.img_in img, o.txt_in txt, tadd v (o.vector_in y),
    o.pe_embedder (torchCat txt_ids img_ids 1), info, zt_r, []⟩, ?_, rfl, rfl, rfl⟩
  unfold kvPrep
  rw [if_neg (by simp [h3i, h3t])]
  dsimp only
  rw [hv, hinv]
  rfl

/-- Evaluation of the preamble on the target pass (inverse false) with a
present zt_r, a mask index list and in-range offset indices: it succeeds,
projects zt_r through img_in, and writes into info the pe_mask obtained by
concatenating the first 512 positions of the joint positional table with
the rows at the mask indices offset by the literal 512 (this is
pe_mask_spec applied at text length 512). -/
theorem kvPrep_target (m : FluxModel) (o : Modules)
    (img img_ids txt txt_ids timesteps y z : Tensor) (guidance : Option Tensor)
    (info : Info) (l : List Nat)
    (h3i : img.ndim = 3) (h3t : txt.ndim = 3)
    (hg : m.params.guidance_embed = true → guidance ≠ none)
    (hinv : Info.get info kInverse = some (.bool false))
    (hmask : Info.get info kMaskIndices = some (.idxs l))
    (hbound : ∀ i ∈ l, i + 512 < (o.pe_embedder (torchCat txt_ids img_ids 1)).size 2) :
    ∃ p : PrepOut,
      kvPrep m o img img_ids txt txt_ids timesteps y guidance info (some z) = .ok p
      ∧ p.tw0 = [((kPeMask : Key),
          Val.tensor (pe_mask_spec (o.pe_embedder (torchCat txt_ids img_ids 1)) 512 l))]
      ∧ p.info = Info.set info kPeMask
          (Val.tensor (pe_mask_spec (o.pe_embedder (torchCat txt_ids img_ids 1)) 512 l))
      ∧ p.zt = some (o.img_in z)
      ∧ p.pe = o.pe_embedder (torchCat txt_ids img_ids 1) := by
  obtain ⟨v, hv⟩ := guidanceVec_ok m.params.guidance_embed o
    (o.time_in (o.timestep_embedding timesteps 256)) guidance hg
  have hb : (l.map (fun i => i + 512)).all
      (fun i => decide (i < (o.pe_embedder (torchCat txt_ids img_ids 1)).size 2)) = true := by
    refine List.all_eq_true.mpr ?_
    intro i hi
    rcases List.mem_map.mp hi with ⟨j, hj, rfl⟩
    exact decide_eq_true (hbound j hj)
  refine ⟨⟨o.img_in img, o.txt_in txt, tadd v (o.vector_in y),
    o.pe_embedder (torchCat txt_ids img_ids 1),
    Info.set info kPeMask
      (Val.tensor (pe_mask_spec (o.pe_embedder (torchCat txt_ids img_ids 1)) 512 l)),
    some (o.img_in z),
    [((kPeMask : Key),
      Val.tensor (pe_mask_spec (o.pe_embedder (torchCat txt_ids img_ids 1)) 512 l))]⟩,
    ?_, rfl, rfl, rfl, rfl⟩
  unfold kvPrep
  rw [if_neg (by simp [h3i, h3t])]
  dsimp only
  rw [hv]
  simp [hinv, hmask, valTruthy, hb, indexSelect, pe_mask_spec]

/-- Claim C6: constructing a model whose configuration violates
hidden_size % num_heads == 0, or whose axes_dim entries do not sum to
hidden_size / num_heads, fails with a configuration ValueError at
construction time (the constructor returns no model, so no layer is ever
built); every configuration accepted by the constructor satisfies both
conditions; and the KV-aware constructor validates identically, since it
merely delegates to the plain one. Stated for a positive head count (with
num_heads = 0 the python modulus raises ZeroDivisionError instead). -/
theorem c6_construction_validation (p : FluxParams) (hh : 0 < p.num_heads) :
    ((∃ m, mkFlux p = .ok m) ↔
      (p.hidden_size % p.num_heads = 0 ∧ p.axes_dim.sum = p.hidden_size / p.num_heads))
    ∧ ((p.hidden_size % p.num_heads ≠ 0 ∨ p.axes_dim.sum ≠ p.hidden_size / p.num_heads) →
        ∃ e, mkFlux p = .error e ∧ e.isConfigurationError = true)
    ∧ mkFlux_kv p = mkFlux p := by
  have hne : p.num_heads ≠ 0 := Nat.pos_iff_ne_zero.mp hh
  refine ⟨⟨?_, ?_⟩, ?_, rfl⟩
  · rintro ⟨m, hm⟩
    unfold mkFlux at hm
    rw [if_neg hne] at hm
    by_cases h1 : p.hidden_size % p.num_heads ≠ 0
    · rw [if_pos h1] at hm
      exact absurd hm (by simp)
    · rw [if_neg h1] at hm
      by_cases h2 : p.axes_dim.sum ≠ p.hidden_size / p.num_heads
      · rw [if_pos h2] at hm
        exact absurd hm (by simp)
      · push_neg at h1 h2
        exact ⟨h1, h2⟩
  · rintro ⟨h1, h2⟩
    refine ⟨⟨p, p.in_channels, p.in_channels, p.hidden_size, p.num_heads,
      p.hidden_size / p.num_heads⟩, ?_⟩
    unfold mkFlux
    rw [if_neg hne, if_neg (by simp [h1]), if_neg (by simp [h2])]
  · intro h
    by_cases h1 : p.hidden_size % p.num_heads ≠ 0
    · refine ⟨.configHiddenSize, ?_, rfl⟩
      unfold mkFlux
      rw [if_neg hne, if_pos h1]
    · have h2 : p.axes_dim.sum ≠ p.hidden_size / p.num_heads := by
        rcases h with h | h
        · exact absurd h h1
        · exact h
      refine ⟨.configAxesDim, ?_, rfl⟩
      unfold mkFlux
      rw [if_neg hne, if_neg h1, if_pos h2]

/-- Witness for C6 at the concrete configuration exParams (and implicitly
the scenario of spec section 8): applying the claim theorem at p = exParams
with its positive-head-count hypothesis discharged. -/
theorem c6_construction_validation_witness :
    ((∃ m, mkFlux exParams = .ok m) ↔
      (exParams.hidden_size % exParams.num_heads = 0
        ∧ exParams.axes_dim.sum = exParams.hidden_size / exParams.num_heads))
    ∧ ((exParams.hidden_size % exParams.num_heads ≠ 0
        ∨ exParams.axes_dim.sum ≠ exParams.hidden_size / exParams.num_heads) →
        ∃ e, mkFlux exParams = .error e ∧ e.isConfigurationError = true)
    ∧ mkFlux_kv exParams = mkFlux exParams :=
  c6_construction_validation exParams (by decide)

/-- Claim C4: on a model configured with guidance_embed true, a call that
omits the guidance argument fails at call time with the
missing-conditioning ValueError, in the plain and in the KV-aware forward
alike; in the KV-aware variant no block is invoked, no transformer write is
performed and the caller-supplied mappings are left untouched (so nothing
is silently defaulted). Stated for calls that pass the earlier rank-3
input check, which otherwise fires first. -/
theorem c4_missing_guidance (m : FluxModel) (o : Modules)
    (dblocks : List DBlock) (sblocks : List SBlock)
    (kdblocks : List DBlockKV) (ksblocks : List SBlockKV)
    (img img_ids txt txt_ids timesteps y : Tensor)
    (info info_s : Info) (zt_r : Option Tensor) (inp : Info)
    (h3i : img.ndim = 3) (h3t : txt.ndim = 3)
    (hge : m.params.guidance_embed = true) :
    Flux.forward m o dblocks sblocks img img_ids txt txt_ids timesteps y none
      = .error .missingConditioning
    ∧ Flux_kv.forward m o kdblocks ksblocks img img_ids txt txt_ids timesteps y none
        info info_s zt_r inp
      = ⟨.error .missingConditioning, info, info_s, inp, [], []⟩ := by
  have hcond : ¬(img.ndim ≠ 3 ∨ txt.ndim ≠ 3) := by simp [h3i, h3t]
  have hgv : guidanceVec m.params.guidance_embed o
      (o.time_in (o.timestep_embedding timesteps 256)) none
      = .error .missingConditioning := by
    unfold guidanceVec
    rw [hge]
    rfl
  constructor
  · unfold Flux.forward
    rw [if_neg hcond]
    dsimp only
    rw [hgv]
  · refine kvForward_prep_error m o kdblocks ksblocks img img_ids txt txt_ids
      timesteps y none info info_s zt_r inp .missingConditioning ?_
    unfold kvPrep
    rw [if_neg hcond]
    dsimp only
    rw [hgv]

/-- Witness for C4: the claim theorem applied at the concrete
guidance-enabled model exModelG and concrete rank-3 inputs. -/
theorem c4_missing_guidance_witness :
    Flux.forward exModelG exModules [] [] (zeros [1, 6, 4]) (zeros [1, 6, 3])
      (zeros [1, 3, 8]) (zeros [1, 3, 3]) (zeros [1]) (zeros [1, 8]) none
      = .error .missingConditioning
    ∧ Flux_kv.forward exModelG exModules [] [] (zeros [1, 6, 4]) (zeros [1, 6, 3])
      (zeros [1, 3, 8]) (zeros [1, 3, 3]) (zeros [1]) (zeros [1, 8]) none
      exInfoSource [] none []
      = ⟨.error .missingConditioning, exInfoSource, [], [], [], []⟩ :=
  c4_missing_guidance exModelG exModules [] [] [] [] (zeros [1, 6, 4])
    (zeros [1, 6, 3]) (zeros [1, 3, 8]) (zeros [1, 3, 3]) (zeros [1]) (zeros [1, 8])
    exInfoSource [] none [] rfl rfl rfl

/-- Claim C5: on a model configured with guidance_embed false, the guidance
argument has no influence on the result: a call passing any guidance value
produces the same output as the call passing none, for the plain and the
KV-aware forward alike (all other arguments equal). -/
theorem c5_guidance_ignored (m : FluxModel) (o : Modules)
    (dblocks : List DBlock) (sblocks : List SBlock)
    (kdblocks : List DBlockKV) (ksblocks : List SBlockKV)
    (img img_ids txt txt_ids timesteps y g : Tensor)
    (info info_s : Info) (zt_r : Option Tensor) (inp : Info)
    (hge : m.params.guidance_embed = false) :
    Flux.forward m o dblocks sblocks img img_ids txt txt_ids timesteps y (some g)
      = Flux.forward m o dblocks sblocks img img_ids txt txt_ids timesteps y none
    ∧ Flux_kv.forward m o kdblocks ksblocks img img_ids txt txt_ids timesteps y
        (some g) info info_s zt_r inp
      = Flux_kv.forward m o kdblocks ksblocks img img_ids txt txt_ids timesteps y
        none info info_s zt_r inp := by
  have hg1 : ∀ gu : Option Tensor,
      guidanceVec m.params.guidance_embed o
        (o.time_in (o.timestep_embedding timesteps 256)) gu
      = .ok (o.time_in (o.timestep_embedding timesteps 256)) := by
    intro gu
    unfold guidanceVec
    rw [hge]
    rfl
  constructor
  · unfold Flux.forward
    dsimp only
    rw [hg1 (some g), hg1 none]
  · unfold Flux_kv.forward kvPrep
    dsimp only
    rw [hg1 (some g), hg1 none]

/-- Witness for C5: the claim theorem applied at the concrete
guidance-disabled model exModel, with a nonzero guidance tensor, projected
to the plain-variant conclusion. -/
theorem c5_guidance_ignored_witness :
    Flux.forward exModel exModules [exDBlock] [exSBlock] (zeros [1, 6, 4])
      (zeros [1, 6, 3]) (zeros [1, 3, 8]) (zeros [1, 3, 3]) (zeros [1]) (zeros [1, 8])
      (some (zeros [1]))
      = Flux.forward exModel exModules [exDBlock] [exSBlock] (zeros [1, 6, 4])
        (zeros [1, 6, 3]) (zeros [1, 3, 8]) (zeros [1, 3, 3]) (zeros [1]) (zeros [1, 8])
        none :=
  (c5_guidance_ignored exModel exModules [exDBlock] [exSBlock] [] [] (zeros [1, 6, 4])
    (zeros [1, 6, 3]) (zeros [1, 3, 8]) (zeros [1, 3, 3]) (zeros [1]) (zeros [1, 8])
    (zeros [1]) [] [] none [] rfl).1

/-- Claim C7: a forward call (plain or KV-aware) whose image or text tensor
is not rank-3 fails with the input-shape ValueError, and the check happens
before anything else: in the KV-aware variant the result equation exhibits
the caller-supplied mappings unchanged, no block invocation and no
transformer write, and the stated equations hold for arbitrary opaque
submodules and blocks, so no projection, embedding or block output can
enter the result. -/
theorem c7_rank_check_first (m : FluxModel) (o : Modules)
    (dblocks : List DBlock) (sblocks : List SBlock)
    (kdblocks : List DBlockKV) (ksblocks : List SBlockKV)
    (img img_ids txt txt_ids timesteps y : Tensor) (guidance : Option Tensor)
    (info info_s : Info) (zt_r : Option Tensor) (inp : Info)
    (h : img.ndim ≠ 3 ∨ txt.ndim ≠ 3) :
    Flux.forward m o dblocks sblocks img img_ids txt txt_ids timesteps y guidance
      = .error .inputShape
    ∧ Flux_kv.forward m o kdblocks ksblocks img img_ids txt txt_ids timesteps y
        guidance info info_s zt_r inp
      = ⟨.error .inputShape, info, info_s, inp, [], []⟩ := by
  constructor
  · unfold Flux.forward
    rw [if_pos h]
  · refine kvForward_prep_error m o kdblocks ksblocks img img_ids txt txt_ids
      timesteps y guidance info info_s zt_r inp .inputShape ?_
    unfold kvPrep
    rw [if_pos h]

/-- Witness for C7: the claim theorem applied at a concrete rank-2 image
tensor, both conclusions retained. -/
theorem c7_rank_check_first_witness :
    Flux.forward exModel exModules [exDBlock] [exSBlock] (zeros [1, 4]) (zeros [1, 6, 3])
      (zeros [1, 3, 8]) (zeros [1, 3, 3]) (zeros [1]) (zeros [1, 8]) none
      = .error .inputShape
    ∧ Flux_kv.forward exModel exModules [exDBlockKV] [exSBlockKV] (zeros [1, 4])
        (zeros [1, 6, 3]) (zeros [1, 3, 8]) (zeros [1, 3, 3]) (zeros [1]) (zeros [1, 8])
        none exInfoTarget [] none []
      = ⟨.error .inputShape, exInfoTarget, [], [], [], []⟩ :=
  c7_rank_check_first exModel exModules [exDBlock] [exSBlock] [exDBlockKV] [exSBlockKV]
    (zeros [1, 4]) (zeros [1, 6, 3]) (zeros [1, 3, 8]) (zeros [1, 3, 3]) (zeros [1])
    (zeros [1, 8]) none exInfoTarget [] none [] (Or.inl (by decide))

/-- Claim C9: the plain forward orchestration is deterministic: two calls
with identical inputs and identical (unmutated) model, submodules and
blocks, the latter modelled as deterministic opaque functions, yield
identical outputs. -/
theorem c9_plain_deterministic (m1 m2 : FluxModel) (o1 o2 : Modules)
    (db1 db2 : List DBlock) (sb1 sb2 : List SBlock)
    (img1 img2 imgids1 imgids2 txt1 txt2 txtids1 txtids2 ts1 ts2 y1 y2 : Tensor)
    (g1 g2 : Option Tensor)
    (hm : m1 = m2) (ho : o1 = o2) (hdb : db1 = db2) (hsb : sb1 = sb2)
    (h1 : img1 = img2) (h2 : imgids1 = imgids2) (h3 : txt1 = txt2)
    (h4 : txtids1 = txtids2) (h5 : ts1 = ts2) (h6 : y1 = y2) (h7 : g1 = g2) :
    Flux.forward m1 o1 db1 sb1 img1 imgids1 txt1 txtids1 ts1 y1 g1
      = Flux.forward m2 o2 db2 sb2 img2 imgids2 txt2 txtids2 ts2 y2 g2 := by
  subst hm ho hdb hsb h1 h2 h3 h4 h5 h6 h7
  rfl

/-- Witness for C9: the claim theorem applied at concrete identical calls. -/
theorem c9_plain_deterministic_witness :
    Flux.forward exModel exModules [exDBlock] [exSBlock] (zeros [1, 6, 4])
      (zeros [1, 6, 3]) (zeros [1, 3, 8]) (zeros [1, 3, 3]) (zeros [1]) (zeros [1, 8]) none
      = Flux.forward exModel exModules [exDBlock] [exSBlock] (zeros [1, 6, 4])
        (zeros [1, 6, 3]) (zeros [1, 3, 8]) (zeros [1, 3, 3]) (zeros [1]) (zeros [1, 8]) none :=
  c9_plain_deterministic exModel exModel exModules exModules [exDBlock] [exDBlock]
    [exSBlock] [exSBlock] (zeros [1, 6, 4]) (zeros [1, 6, 4]) (zeros [1, 6, 3])
    (zeros [1, 6, 3]) (zeros [1, 3, 8]) (zeros [1, 3, 8]) (zeros [1, 3, 3])
    (zeros [1, 3, 3]) (zeros [1]) (zeros [1]) (zeros [1, 8]) (zeros [1, 8]) none none
    rfl rfl rfl rfl rfl rfl rfl rfl rfl rfl rfl

/-- Claim C2: in every KV-aware forward call, each block invocation
observes the id entry of the info mapping equal to its 0-indexed position
within its loop, whatever id value an earlier loop, an earlier call or the
caller left in the mapping (the initial info is arbitrary here); and on
every call that produces an output, the invocation trace is the dual-stream
positions 0..D-1 followed by the single-stream positions 0..S-1 — the
counter restarts at zero for the single-stream loop. -/
theorem c2_block_id_addressing (m : FluxModel) (o : Modules)
    (kdblocks : List DBlockKV) (ksblocks : List SBlockKV)
    (img img_ids txt txt_ids timesteps y : Tensor) (guidance : Option Tensor)
    (info info_s : Info) (zt_r : Option Tensor) (inp : Info) :
    (∀ c ∈ (Flux_kv.forward m o kdblocks ksblocks img img_ids txt txt_ids timesteps y
        guidance info info_s zt_r inp).calls, c.idSeen = some (Val.nat c.pos))
    ∧ ((∃ t, (Flux_kv.forward m o kdblocks ksblocks img img_ids txt txt_ids timesteps y
        guidance info info_s zt_r inp).out = .ok t) →
      (Flux_kv.forward m o kdblocks ksblocks img img_ids txt txt_ids timesteps y
        guidance info info_s zt_r inp).calls.map (fun c => (c.loop, c.pos))
        = (posList 0 kdblocks.length).map (fun j => (0, j))
          ++ (posList 0 ksblocks.length).map (fun j => (1, j))) := by
  cases hp : kvPrep m o img img_ids txt txt_ids timesteps y guidance info zt_r with
  | error e =>
    rw [kvForward_prep_error m o kdblocks ksblocks img img_ids txt txt_ids timesteps y
      guidance info info_s zt_r inp e hp]
    constructor
    · intro c hc
      simp at hc
    · rintro ⟨t, ht⟩
      exact absurd ht (by simp)
  | ok p =>
    rw [kvForward_prep_ok m o kdblocks ksblocks img img_ids txt txt_ids timesteps y
      guidance info info_s zt_r inp p hp]
    obtain ⟨a1, a2, _⟩ := kvAssemble_spec o kdblocks ksblocks info_s inp p
    exact ⟨fun c hc => (a1 c hc).1, fun _ => a2⟩

/-- Witness for C2: the claim theorem applied at a concrete source-pass
call (with a stale id entry 55 in the initial info), the trace conclusion
obtained by exhibiting the concrete output. -/
theorem c2_block_id_addressing_witness :
    (∀ c ∈ (Flux_kv.forward exModel exModules [exDBlockKV] [exSBlockKV]
        (zeros [1, 6, 4]) (zeros [1, 6, 3]) (zeros [1, 3, 8]) (zeros [1, 3, 3])
        (zeros [1]) (zeros [1, 8]) none exInfoSource [] none []).calls,
      c.idSeen = some (Val.nat c.pos))
    ∧ (Flux_kv.forward exModel exModules [exDBlockKV] [exSBlockKV]
        (zeros [1, 6, 4]) (zeros [1, 6, 3]) (zeros [1, 3, 8]) (zeros [1, 3, 3])
        (zeros [1]) (zeros [1, 8]) none exInfoSource [] none []).calls.map
        (fun c => (c.loop, c.pos))
        = (posList 0 1).map (fun j => (0, j)) ++ (posList 0 1).map (fun j => (1, j)) := by
  have h := c2_block_id_addressing exModel exModules [exDBlockKV] [exSBlockKV]
    (zeros [1, 6, 4]) (zeros [1, 6, 3]) (zeros [1, 3, 8]) (zeros [1, 3, 3])
    (zeros [1]) (zeros [1, 8]) none exInfoSource [] none []
  exact ⟨h.1, by simpa using h.2 ⟨_, rfl⟩⟩

/-- Claim C3: on the source pass (inverse true) the transformer performs no
zt_r projection and derives no pe_mask: every write the transformer itself
performs on the info mapping is an id write, and every block receives the
zt_r argument exactly as passed by the caller. -/
theorem c3_source_pass_frame (m : FluxModel) (o : Modules)
    (kdblocks : List DBlockKV) (ksblocks : List SBlockKV)
    (img img_ids txt txt_ids timesteps y : Tensor) (guidance : Option Tensor)
    (info info_s : Info) (zt_r : Option Tensor) (inp : Info)
    (h3i : img.ndim = 3) (h3t : txt.ndim = 3)
    (hg : m.params.guidance_embed = true → guidance ≠ none)
    (hinv : Info.get info kInverse = some (.bool true)) :
    (∀ w ∈ (Flux_kv.forward m o kdblocks ksblocks img img_ids txt txt_ids timesteps y
        guidance info info_s zt_r inp).twrites, ∃ j, w = ((kId : Key), Val.nat j))
    ∧ (∀ c ∈ (Flux_kv.forward m o kdblocks ksblocks img img_ids txt txt_ids timesteps y
        guidance info info_s zt_r inp).calls, c.ztSeen = zt_r) := by
  obtain ⟨p, hp, hpz, hpt, hpi⟩ := kvPrep_inverse_true m o img img_ids txt txt_ids
    timesteps y guidance info zt_r h3i h3t hg hinv
  rw [kvForward_prep_ok m o kdblocks ksblocks img img_ids txt txt_ids timesteps y
    guidance info info_s zt_r inp p hp]
  obtain ⟨a1, _, a3⟩ := kvAssemble_spec o kdblocks ksblocks info_s inp p
  constructor
  · intro w hw
    rcases a3 w hw with h | h
    · rw [hpt] at h
      simp at h
    · exact h
  · intro c hc
    rw [← hpz]
    exact (a1 c hc).2

/-- Witness for C3: the claim theorem applied at a concrete source-pass
call with a present zt_r tensor. -/
theorem c3_source_pass_frame_witness :
    (∀ w ∈ (Flux_kv.forward exModel exModules [exDBlockKV] [exSBlockKV]
        (zeros [1, 6, 4]) (zeros [1, 6, 3]) (zeros [1, 3, 8]) (zeros [1, 3, 3])
        (zeros [1]) (zeros [1, 8]) none exInfoSource [] (some (zeros [1, 6, 4]))
        []).twrites, ∃ j, w = ((kId : Key), Val.nat j))
    ∧ (∀ c ∈ (Flux_kv.forward exModel exModules [exDBlockKV] [exSBlockKV]
        (zeros [1, 6, 4]) (zeros [1, 6, 3]) (zeros [1, 3, 8]) (zeros [1, 3, 3])
        (zeros [1]) (zeros [1, 8]) none exInfoSource [] (some (zeros [1, 6, 4]))
        []).calls, c.ztSeen = some (zeros [1, 6, 4])) :=
  c3_source_pass_frame exModel exModules [exDBlockKV] [exSBlockKV]
    (zeros [1, 6, 4]) (zeros [1, 6, 3]) (zeros [1, 3, 8]) (zeros [1, 3, 3])
    (zeros [1]) (zeros [1, 8]) none exInfoSource [] (some (zeros [1, 6, 4])) []
    rfl rfl (fun h => absurd h (by decide)) rfl

/-- Claim C1 (counterexample): at the input of the claim — text length 4,
image positional table of length 10 (joint table 14), mask indices 1 and 3,
target pass — the KV-aware forward does not derive the claimed 6-row
pe_mask at joint positions 0,1,2,3,5,7: the code slices the joint table
with the literal 512 and indexes it at mask_indices + 512, so the call
aborts with IndexError (513 and 515 exceed 14) and no pe_mask entry is
written into info at all. -/
theorem c1_pe_mask_counterexample :
    (Flux_kv.forward exModel exModules [] [] (zeros [1, 10, 4]) (zeros [1, 10, 3])
      (zeros [1, 4, 8]) (zeros [1, 4, 3]) (zeros [1]) (zeros [1, 8]) none
      exInfoTarget [] (some (zeros [1, 10, 4])) []).out = .error .indexError
    ∧ Info.get (Flux_kv.forward exModel exModules [] [] (zeros [1, 10, 4])
      (zeros [1, 10, 3]) (zeros [1, 4, 8]) (zeros [1, 4, 3]) (zeros [1]) (zeros [1, 8])
      none exInfoTarget [] (some (zeros [1, 10, 4])) []).info kPeMask = none := by
  exact ⟨rfl, rfl⟩

/-- Claim C1 (amended): on the target pass the transformer derives pe_mask
by concatenating the positional-table slice for the first 512 joint
positions (a literal, not the text length) with the table rows at
mask_indices offset by 512, in that order, and stores it into info; this
coincides with the claimed text-prefix concatenation exactly when the text
length is 512. The offset indices must be in range, else the call aborts
with IndexError as in the counterexample. -/
theorem c1_pe_mask_amended (m : FluxModel) (o : Modules)
    (kdblocks : List DBlockKV) (ksblocks : List SBlockKV)
    (img img_ids txt txt_ids timesteps y z : Tensor) (guidance : Option Tensor)
    (info info_s : Info) (inp : Info) (l : List Nat)
    (h3i : img.ndim = 3) (h3t : txt.ndim = 3)
    (hg : m.params.guidance_embed = true → guidance ≠ none)
    (hinv : Info.get info kInverse = some (.bool false))
    (hmask : Info.get info kMaskIndices = some (.idxs l))
    (hbound : ∀ i ∈ l, i + 512 < (o.pe_embedder (torchCat txt_ids img_ids 1)).size 2) :
    (Flux_kv.forward m o kdblocks ksblocks img img_ids txt txt_ids timesteps y guidance
        info info_s (some z) inp).twrites.head?
      = some ((kPeMask : Key),
          Val.tensor (pe_mask_spec (o.pe_embedder (torchCat txt_ids img_ids 1)) 512 l))
    ∧ (txt.size 1 = 512 →
        (Flux_kv.forward m o kdblocks ksblocks img img_ids txt txt_ids timesteps y
            guidance info info_s (some z) inp).twrites.head?
          = some ((kPeMask : Key),
              Val.tensor (pe_mask_spec (o.pe_embedder (torchCat txt_ids img_ids 1))
                (txt.size 1) l))) := by
  obtain ⟨p, hp, hpt, hpi, hpz, hpe⟩ := kvPrep_target m o img img_ids txt txt_ids
    timesteps y z guidance info l h3i h3t hg hinv hmask hbound
  rw [kvForward_prep_ok m o kdblocks ksblocks img img_ids txt txt_ids timesteps y
    guidance info info_s (some z) inp p hp]
  have hhead : (kvAssemble o kdblocks ksblocks info_s inp p).twrites.head?
      = some ((kPeMask : Key),
          Val.tensor (pe_mask_spec (o.pe_embedder (torchCat txt_ids img_ids 1)) 512 l)) := by
    show (p.tw0 ++ _).head? = _
    rw [hpt]
    rfl
  refine ⟨hhead, ?_⟩
  intro h512
  rw [h512]
  exact hhead

/-- Witness for C1 amended: the claim theorem applied at a concrete target
pass whose text length is 512 (joint table 522), with mask indices 1 and 3
in range. -/
theorem c1_pe_mask_amended_witness :
    (Flux_kv.forward exModel exModules [exDBlockKV] [exSBlockKV] (zeros [1, 10, 4])
        (zeros [1, 10, 3]) (zeros [1, 512, 8]) (zeros [1, 512, 3]) (zeros [1])
        (zeros [1, 8]) none exInfoTarget [] (some (zeros [1, 10, 4])) []).twrites.head?
      = some ((kPeMask : Key),
          Val.tensor (pe_mask_spec
            (exModules.pe_embedder (torchCat (zeros [1, 512, 3]) (zeros [1, 10, 3]) 1))
            512 [1, 3])) :=
  (c1_pe_mask_amended exModel exModules [exDBlockKV] [exSBlockKV] (zeros [1, 10, 4])
    (zeros [1, 10, 3]) (zeros [1, 512, 8]) (zeros [1, 512, 3]) (zeros [1])
    (zeros [1, 8]) (zeros [1, 10, 4]) none exInfoTarget [] [] [1, 3]
    rfl rfl (fun h => absurd h (by decide)) rfl rfl (by decide)).1

/-- Claim C8: for a valid plain forward call, with the opaque collaborators
satisfying their shape contracts (input projections preserve the leading
batch and sequence dimensions, dual-stream blocks return image and text of
unchanged shapes, single-stream blocks return a sequence of unchanged
shape, the final projection maps to out_channels features), the output has
the same batch and image-sequence-length leading shape as the input image
tensor and feature dimension out_channels = in_channels of the accepted
configuration. -/
theorem c8_output_shape (prm : FluxParams) (m : FluxModel) (o : Modules)
    (dblocks : List DBlock) (sblocks : List SBlock)
    (img img_ids txt txt_ids timesteps y : Tensor) (guidance : Option Tensor)
    (bb li ci lt ct : Nat)
    (hm : mkFlux prm = .ok m)
    (himg : img.shape = [bb, li, ci]) (htxt : txt.shape = [bb, lt, ct])
    (hg : m.params.guidance_embed = true → guidance ≠ none)
    (himg_in : (o.img_in img).shape = [bb, li, m.hidden_size])
    (htxt_in : (o.txt_in txt).shape = [bb, lt, m.hidden_size])
    (hdb : ∀ b ∈ dblocks, ∀ (i t v p1 : Tensor),
      (b.apply i t v p1).1.shape = i.shape ∧ (b.apply i t v p1).2.shape = t.shape)
    (hsb : ∀ b ∈ sblocks, ∀ (x v p1 : Tensor), (b.apply x v p1).shape = x.shape)
    (hfl : ∀ (x v : Tensor),
      (o.final_layer x v).shape = [x.size 0, x.size 1, m.out_channels]) :
    ∃ t, Flux.forward m o dblocks sblocks img img_ids txt txt_ids timesteps y guidance
        = .ok t ∧ t.shape = [bb, li, prm.in_channels] := by
  have h3i : img.ndim = 3 := by rw [Tensor.ndim, himg]; rfl
  have h3t : txt.ndim = 3 := by rw [Tensor.ndim, htxt]; rfl
  obtain ⟨v, hv⟩ := guidanceVec_ok m.params.guidance_embed o
    (o.time_in (o.timestep_embedding timesteps 256)) guidance hg
  obtain ⟨hr1, hr2⟩ := runDualPlain_shapes dblocks (o.img_in img) (o.txt_in txt)
    (tadd v (o.vector_in y)) (o.pe_embedder (torchCat txt_ids img_ids 1)) hdb
  have hr1s : (runDualPlain dblocks (o.img_in img) (o.txt_in txt)
      (tadd v (o.vector_in y)) (o.pe_embedder (torchCat txt_ids img_ids 1))).1.shape
      = [bb, li, m.hidden_size] := hr1.trans himg_in
  have hr2s : (runDualPlain dblocks (o.img_in img) (o.txt_in txt)
      (tadd v (o.vector_in y)) (o.pe_embedder (torchCat txt_ids img_ids 1))).2.shape
      = [bb, lt, m.hidden_size] := hr2.trans htxt_in
  have hsz2 : (runDualPlain dblocks (o.img_in img) (o.txt_in txt)
      (tadd v (o.vector_in y)) (o.pe_embedder (torchCat txt_ids img_ids 1))).2.size 1
      = lt := by
    show (runDualPlain dblocks (o.img_in img) (o.txt_in txt)
      (tadd v (o.vector_in y)) (o.pe_embedder (torchCat txt_ids img_ids 1))).2.shape.getD 1 0 = lt
    rw [hr2s]
    rfl
  have hsz1 : (runDualPlain dblocks (o.img_in img) (o.txt_in txt)
      (tadd v (o.vector_in y)) (o.pe_embedder (torchCat txt_ids img_ids 1))).1.size 1
      = li := by
    show (runDualPlain dblocks (o.img_in img) (o.txt_in txt)
      (tadd v (o.vector_in y)) (o.pe_embedder (torchCat txt_ids img_ids 1))).1.shape.getD 1 0 = li
    rw [hr1s]
    rfl
  have hcat : (torchCat
      (runDualPlain dblocks (o.img_in img) (o.txt_in txt)
        (tadd v (o.vector_in y)) (o.pe_embedder (torchCat txt_ids img_ids 1))).2
      (runDualPlain dblocks (o.img_in img) (o.txt_in txt)
        (tadd v (o.vector_in y)) (o.pe_embedder (torchCat txt_ids img_ids 1))).1
      1).shape = [bb, lt + li, m.hidden_size] := by
    rw [torchCat_shape, hsz1, hsz2, hr2s]
    rfl
  have hsingle : (runSinglePlain sblocks
      (torchCat
        (runDualPlain dblocks (o.img_in img) (o.txt_in txt)
          (tadd v (o.vector_in y)) (o.pe_embedder (torchCat txt_ids img_ids 1))).2
        (runDualPlain dblocks (o.img_in img) (o.txt_in txt)
          (tadd v (o.vector_in y)) (o.pe_embedder (torchCat txt_ids img_ids 1))).1
        1)
      (tadd v (o.vector_in y)) (o.pe_embedder (torchCat txt_ids img_ids 1))).shape
      = [bb, lt + li, m.hidden_size] :=
    (runSinglePlain_shape sblocks _ _ _ hsb).trans hcat
  have hsgsz : (runSinglePlain sblocks
      (torchCat
        (runDualPlain dblocks (o.img_in img) (o.txt_in txt)
          (tadd v (o.vector_in y)) (o.pe_embedder (torchCat txt_ids img_ids 1))).2
        (runDualPlain dblocks (o.img_in img) (o.txt_in txt)
          (tadd v (o.vector_in y)) (o.pe_embedder (torchCat txt_ids img_ids 1))).1
        1)
      (tadd v (o.vector_in y)) (o.pe_embedder (torchCat txt_ids img_ids 1))).size 1
      = lt + li := by
    show (runSinglePlain sblocks
      (torchCat
        (runDualPlain dblocks (o.img_in img) (o.txt_in txt)
          (tadd v (o.vector_in y)) (o.pe_embedder (torchCat txt_ids img_ids 1))).2
        (runDualPlain dblocks (o.img_in img) (o.txt_in txt)
          (tadd v (o.vector_in y)) (o.pe_embedder (torchCat txt_ids img_ids 1))).1
        1)
      (tadd v (o.vector_in y)) (o.pe_embedder (torchCat txt_ids img_ids 1))).shape.getD 1 0
      = lt + li
    rw [hsingle]
    rfl
  have hslice : (sliceFrom
      (runSinglePlain sblocks
        (torchCat
          (runDualPlain dblocks (o.img_in img) (o.txt_in txt)
            (tadd v (o.vector_in y)) (o.pe_embedder (torchCat txt_ids img_ids 1))).2
          (runDualPlain dblocks (o.img_in img) (o.txt_in txt)
            (tadd v (o.vector_in y)) (o.pe_embedder (torchCat txt_ids img_ids 1))).1
          1)
        (tadd v (o.vector_in y)) (o.pe_embedder (torchCat txt_ids img_ids 1)))
      1
      ((runDualPlain dblocks (o.img_in img) (o.txt_in txt)
        (tadd v (o.vector_in y)) (o.pe_embedder (torchCat txt_ids img_ids 1))).2.size 1)
      ).shape = [bb, li, m.hidden_size] := by
    rw [sliceFrom_shape, hsz2, hsgsz, hsingle, Nat.add_sub_cancel_left]
    rfl
  unfold Flux.forward
  rw [if_neg (by simp [h3i, h3t])]
  dsimp only
  rw [hv]
  refine ⟨_, rfl, ?_⟩
  rw [hfl, mkFlux_ok_out_channels prm m hm]
  have hx0 : (sliceFrom
      (runSinglePlain sblocks
        (torchCat
          (runDualPlain dblocks (o.img_in img) (o.txt_in txt)
            (tadd v (o.vector_in y)) (o.pe_embedder (torchCat txt_ids img_ids 1))).2
          (runDualPlain dblocks (o.img_in img) (o.txt_in txt)
            (tadd v (o.vector_in y)) (o.pe_embedder (torchCat txt_ids img_ids 1))).1
          1)
        (tadd v (o.vector_in y)) (o.pe_embedder (torchCat txt_ids img_ids 1)))
      1
      ((runDualPlain dblocks (o.img_in img) (o.txt_in txt)
        (tadd v (o.vector_in y)) (o.pe_embedder (torchCat txt_ids img_ids 1))).2.size 1)
      ).size 0 = bb := by
    show (sliceFrom
      (runSinglePlain sblocks
        (torchCat
          (runDualPlain dblocks (o.img_in img) (o.txt_in txt)
            (tadd v (o.vector_in y)) (o.pe_embedder (torchCat txt_ids img_ids 1))).2
          (runDualPlain dblocks (o.img_in img) (o.txt_in txt)
            (tadd v (o.vector_in y)) (o.pe_embedder (torchCat txt_ids img_ids 1))).1
          1)
        (tadd v (o.vector_in y)) (o.pe_embedder (torchCat txt_ids img_ids 1)))
      1
      ((runDualPlain dblocks (o.img_in img) (o.txt_in txt)
        (tadd v (o.vector_in y)) (o.pe_embedder (torchCat txt_ids img_ids 1))).2.size 1)
      ).shape.getD 0 0 = bb
    rw [hslice]
    rfl
  have hx1 : (sliceFrom
      (runSinglePlain sblocks
        (torchCat
          (runDualPlain dblocks (o.img_in img) (o.txt_in txt)
            (tadd v (o.vector_in y)) (o.pe_embedder (torchCat txt_ids img_ids 1))).2
          (runDualPlain dblocks (o.img_in img) (o.txt_in txt)
            (tadd v (o.vector_in y)) (o.pe_embedder (torchCat txt_ids img_ids 1))).1
          1)
        (tadd v (o.vector_in y)) (o.pe_embedder (torchCat txt_ids img_ids 1)))
      1
      ((runDualPlain dblocks (o.img_in img) (o.txt_in txt)
        (tadd v (o.vector_in y)) (o.pe_embedder (torchCat txt_ids img_ids 1))).2.size 1)
      ).size 1 = li := by
    show (sliceFrom
      (runSinglePlain sblocks
        (torchCat
          (runDualPlain dblocks (o.img_in img) (o.txt_in txt)
            (tadd v (o.vector_in y)) (o.pe_embedder (torchCat txt_ids img_ids 1))).2
          (runDualPlain dblocks (o.img_in img) (o.txt_in txt)
            (tadd v (o.vector_in y)) (o.pe_embedder (torchCat txt_ids img_ids 1))).1
          1)
        (tadd v (o.vector_in y)) (o.pe_embedder (torchCat txt_ids img_ids 1)))
      1
      ((runDualPlain dblocks (o.img_in img) (o.txt_in txt)
        (tadd v (o.vector_in y)) (o.pe_embedder (torchCat txt_ids img_ids 1))).2.size 1)
      ).shape.getD 1 0 = li
    rw [hslice]
    rfl
  rw [hx0, hx1]

/-- Witness for C8: the claim theorem applied at the concrete scenario of
spec section 8 — configuration exParams, image of shape (1, 6, 4), text of
shape (1, 3, 8), identity blocks — producing an output of shape (1, 6, 4)
and no exception. -/
theorem c8_output_shape_witness :
    ∃ t, Flux.forward exModel exModules [exDBlock] [exSBlock] (zeros [1, 6, 4])
        (zeros [1, 6, 3]) (zeros [1, 3, 8]) (zeros [1, 3, 3]) (zeros [1]) (zeros [1, 8])
        none
      = .ok t ∧ t.shape = [1, 6, exParams.in_channels] :=
  c8_output_shape exParams exModel exModules [exDBlock] [exSBlock] (zeros [1, 6, 4])
    (zeros [1, 6, 3]) (zeros [1, 3, 8]) (zeros [1, 3, 3]) (zeros [1]) (zeros [1, 8])
    none 1 6 4 3 8 rfl rfl rfl (fun h => absurd h (by decide)) rfl rfl
    (by
      intro b hb i t v1 p1
      rcases List.mem_singleton.mp hb with rfl
      exact ⟨rfl, rfl⟩)
    (by
      intro b hb x v1 p1
      rcases List.mem_singleton.mp hb with rfl
      rfl)
    (fun x v1 => rfl)

/-- Claim C10 (counterexample): calls of Flux_kv.forward that omit the
info, info_s and inp_target_s arguments do share the single default
dictionaries, but the claimed persistence of the transformer-written id
counter (and pe_mask) never materialises: such a call dies with KeyError on
the inverse flag before the transformer writes anything, so after a first
omitting call the shared default info mapping is still empty, contains no
id entry at the start of the second omitting call (on another model
value), and that call fails identically. -/
theorem c10_default_dict_counterexample :
    (Flux_kv.call exModel exModules [exDBlockKV] [exSBlockKV] exArgsOmit
        initialDefaults).1.out = .error (.keyError kInverse)
    ∧ (Flux_kv.call exModel exModules [exDBlockKV] [exSBlockKV] exArgsOmit
        initialDefaults).2.info = []
    ∧ Info.get (Flux_kv.call exModel exModules [exDBlockKV] [exSBlockKV] exArgsOmit
        initialDefaults).2.info kId = none
    ∧ (Flux_kv.call exModel exModules [] [] exArgsOmit
        (Flux_kv.call exModel exModules [exDBlockKV] [exSBlockKV] exArgsOmit
          initialDefaults).2).1.out = .error (.keyError kInverse)
    ∧ (Flux_kv.call exModel exModules [] [] exArgsOmit
        (Flux_kv.call exModel exModules [exDBlockKV] [exSBlockKV] exArgsOmit
          initialDefaults).2).2.info = [] :=
  ⟨rfl, rfl, rfl, rfl, rfl⟩

/-- Claim C10 (amended): the default info, info_s and inp_target_s
dictionaries are created once when the def statement of Flux_kv.forward
executes and are shared by every call, on any model instance, that omits
the corresponding argument: a second omitting call runs the forward body on
exactly the mappings as the first omitting call left them (they are not
freshly allocated per call). However, a call omitting info runs on a
default info cell that never acquires the inverse key, so it fails with
KeyError on that key before any transformer write: the default info cell is
left unchanged and no id or pe_mask entry is ever deposited in it. -/
theorem c10_default_dict_amended (m1 m2 : FluxModel) (o1 o2 : Modules)
    (db1 db2 : List DBlockKV) (sb1 sb2 : List SBlockKV)
    (a1 a2 : KVCallArgs) (d : Defaults)
    (h1 : a1.info = none) (h1s : a1.info_s = none) (h1p : a1.inp = none)
    (h2 : a2.info = none) (h2s : a2.info_s = none) (h2p : a2.inp = none) :
    ((Flux_kv.call m2 o2 db2 sb2 a2 ((Flux_kv.call m1 o1 db1 sb1 a1 d).2)).1
      = Flux_kv.forward m2 o2 db2 sb2 a2.img a2.img_ids a2.txt a2.txt_ids a2.timesteps
          a2.y a2.guidance
          (Flux_kv.call m1 o1 db1 sb1 a1 d).1.info
          (Flux_kv.call m1 o1 db1 sb1 a1 d).1.info_s
          a2.zt_r
          (Flux_kv.call m1 o1 db1 sb1 a1 d).1.inp)
    ∧ (a1.img.ndim = 3 → a1.txt.ndim = 3 →
        (m1.params.guidance_embed = true → a1.guidance ≠ none) →
        Info.get d.info kInverse = none →
        (Flux_kv.call m1 o1 db1 sb1 a1 d).1.out = .error (.keyError kInverse)
        ∧ (Flux_kv.call m1 o1 db1 sb1 a1 d).2.info = d.info
        ∧ (Flux_kv.call m1 o1 db1 sb1 a1 d).1.twrites = []) := by
  constructor
  · simp [Flux_kv.call, h1, h1s, h1p, h2, h2s, h2p]
  · intro h3i h3t hgq hinvd
    obtain ⟨v, hv⟩ := guidanceVec_ok m1.params.guidance_embed o1
      (o1.time_in (o1.timestep_embedding a1.timesteps 256)) a1.guidance hgq
    have hp : kvPrep m1 o1 a1.img a1.img_ids a1.txt a1.txt_ids a1.timesteps a1.y
        a1.guidance d.info a1.zt_r = .error (.keyError kInverse) := by
      unfold kvPrep
      rw [if_neg (by simp [h3i, h3t])]
      dsimp only
      rw [hv, hinvd]
    have hf := kvForward_prep_error m1 o1 db1 sb1 a1.img a1.img_ids a1.txt a1.txt_ids
      a1.timesteps a1.y a1.guidance d.info d.info_s
      a1.zt_r d.inp (.keyError kInverse) hp
    have hcall : Flux_kv.call m1 o1 db1 sb1 a1 d
        = (⟨.error (.keyError kInverse), d.info, d.info_s, d.inp, [], []⟩,
           ⟨d.info, d.info_s, d.inp⟩) := by
      simp [Flux_kv.call, h1, h1s, h1p, hf]
    rw [hcall]
    exact ⟨rfl, rfl, rfl⟩

/-- Witness for C10 amended: the amended theorem applied at two concrete
consecutive calls omitting all three dictionary arguments, on the fresh
defaults, with the KeyError clause discharged at the concrete rank-3
inputs. -/
theorem c10_default_dict_amended_witness :
    ((Flux_kv.call exModel exModules [] [] exArgsOmit
        ((Flux_kv.call exModel exModules [exDBlockKV] [exSBlockKV] exArgsOmit
          initialDefaults).2)).1
      = Flux_kv.forward exModel exModules [] [] exArgsOmit.img exArgsOmit.img_ids
          exArgsOmit.txt exArgsOmit.txt_ids exArgsOmit.timesteps exArgsOmit.y
          exArgsOmit.guidance
          (Flux_kv.call exModel exModules [exDBlockKV] [exSBlockKV] exArgsOmit
            initialDefaults).1.info
          (Flux_kv.call exModel exModules [exDBlockKV] [exSBlockKV] exArgsOmit
            initialDefaults).1.info_s
          exArgsOmit.zt_r
          (Flux_kv.call exModel exModules [exDBlockKV] [exSBlockKV] exArgsOmit
            initialDefaults).1.inp)
    ∧ ((Flux_kv.call exModel exModules [exDBlockKV] [exSBlockKV] exArgsOmit
          initialDefaults).1.out = .error (.keyError kInverse)
        ∧ (Flux_kv.call exModel exModules [exDBlockKV] [exSBlockKV] exArgsOmit
            initialDefaults).2.info = initialDefaults.info
        ∧ (Flux_kv.call exModel exModules [exDBlockKV] [exSBlockKV] exArgsOmit
            initialDefaults).1.twrites = []) := by
  have h := c10_default_dict_amended exModel exModel exModules exModules
    [exDBlockKV] [] [exSBlockKV] [] exArgsOmit exArgsOmit initialDefaults
    rfl rfl rfl rfl rfl rfl
  exact ⟨h.1, h.2 rfl rfl (fun hq => absurd hq (by decide)) rfl⟩

end FluxSpec
